import Mathlib

/-
Shallow embedding of the multipass LXD backend:
  - lxd_virtual_machine.cpp (instance lifecycle controller)
  - lxd_vm_image_vault.cpp  (image fetch pipeline)
Remote interactions (lxd_request) are modelled by passing the scripted
responses explicitly; each operation returns, alongside the new local
state, the list of requests or actions it issued, the monitor
notifications it emitted, and the error-level log lines it produced.
-/

namespace LXD

/-- Lifecycle states of mp::VirtualMachine::State used by this backend. -/
inductive State
  | off
  | stopped
  | starting
  | restarting
  | running
  | delayed_shutdown
  | suspending
  | suspended
  | unknown
deriving DecidableEq

/-- Minimal QJsonValue model for the metadata fields instance_state_for
reads: a JSON number, a JSON string, or an undefined/other value. -/
inductive JsonValue
  | num (n : Int)
  | str (s : String)
  | undef
deriving DecidableEq

/-- QJsonValue toInt with a default: the numeric value for a JSON number,
the default for anything else (a JSON string is not converted). -/
def jsonToInt (v : JsonValue) (dflt : Int) : Int :=
  match v with
  | JsonValue.num n => n
  | _ => dflt

/-- QJsonValue toString: the string value for a JSON string, the empty
string for anything else (a JSON number is not converted). -/
def jsonToString (v : JsonValue) : String :=
  match v with
  | JsonValue.str s => s
  | _ => ""

/-- The two format arguments of the error line emitted by the default
branch of instance_state_for (lines 71-73): the rendering of
status_code via toString and the rendering of status via toInt, whose
default argument is 0. -/
structure ErrorLogLine where
  statusCodeText : String
  statusInt : Int
deriving DecidableEq

/-- Embeds the switch in instance_state_for (lxd_virtual_machine.cpp,
lines 45-76) over the metadata fields status_code and status of the GET
reply: the switch runs on status_code.toInt(-1); the default branch emits
one error-severity line whose format arguments are
status_code.toString() and status.toInt() — accessors swapped relative
to the trace line at line 50, which renders status with toString. -/
def instance_state_for (status_code status : JsonValue) : State × List ErrorLogLine :=
  let code := jsonToInt status_code (-1)
  if code = 101 ∨ code = 103 ∨ code = 107 ∨ code = 111 then
    (State.running, [])
  else if code = 102 then
    (State.stopped, [])
  else if code = 106 then
    (State.starting, [])
  else if code = 109 then
    (State.suspending, [])
  else if code = 110 then
    (State.suspended, [])
  else if code = 104 ∨ code = 108 then
    (State.unknown, [])
  else
    (State.unknown,
      [{ statusCodeText := jsonToString status_code, statusInt := jsonToInt status 0 }])

/-- The status codes given a dedicated case label in the switch. -/
def definedStatusCodes : List Int := [101, 102, 103, 104, 106, 107, 108, 109, 110, 111]

/-- MemorySize "10G" in bytes: multipass MemorySize uses binary multipliers,
so 10G = 10 GiB. -/
def lxd_min_disk_size : Nat := 10 * 1024 ^ 3

/-- Embeds get_minimum_disk_size (lines 96-108): the requested disk size
when it exceeds the 10 GiB floor, otherwise the floor. -/
def get_minimum_disk_size (requested_disk_size : Nat) : Nat :=
  if requested_disk_size > lxd_min_disk_size then
    requested_disk_size
  else
    lxd_min_disk_size

/-- The root-disk size field of the create request built in the
LXDVirtualMachine constructor (lines 142-147). -/
def create_request_root_disk_size (requested_disk_size : Nat) : Nat :=
  get_minimum_disk_size requested_disk_size

/-- One scripted reply to a GET of an operation poll URL: either the
LXDNotFoundException branch, or a JSON reply carrying error_code,
metadata.status_code and metadata.metadata.download_progress. -/
inductive PollResponse
  | notFound
  | reply (error_code : Int) (status_code : Int) (download_progress : String)
deriving DecidableEq

/-- How the polling loop terminated. -/
inductive PollOutcome
  | opError
  | success
  | finishedNotFound
deriving DecidableEq

/-- The outcome counts as successful completion unless the loop broke on a
non-zero error_code. -/
def PollOutcome.succeeded : PollOutcome → Bool
  | .opError => false
  | .success => true
  | .finishedNotFound => true

/-- Embeds the inline polling loop of the LXDVirtualMachine constructor
(lines 170-199; the same loop body appears in LXDVMImageVault::fetch_image).
Consumes one scripted response per iteration and returns the terminating
branch together with the number of sleep_for(1s) calls performed; none when
the script is exhausted before the loop terminates. -/
def poll_operation : List PollResponse → Option (PollOutcome × Nat)
  | [] => none
  | PollResponse.notFound :: _ => some (PollOutcome.finishedNotFound, 0)
  | PollResponse.reply e s _ :: rest =>
    if e ≠ 0 then
      some (PollOutcome.opError, 0)
    else if s = 200 then
      some (PollOutcome.success, 0)
    else
      (poll_operation rest).map (fun r => (r.1, r.2 + 1))

/-- The whitespace class of the regex \s over the ASCII range. -/
def isSpaceChar (c : Char) : Bool :=
  c = ' ' || c = '\t' || c = '\n' || c = '\x0b' || c = '\x0c' || c = '\r'

/-- Numeric value of an ASCII digit. -/
def digitVal (c : Char) : Int :=
  (c.toNat : Int) - 48

/-- Attempts to match the regex fragment (\d{1,3})% at the head of the
character list, with the greedy-plus-backtracking semantics of
QRegularExpression, returning the captured integer. -/
def matchDigitsPercent : List Char → Option Int
  | c1 :: c2 :: rest =>
    if c1.isDigit then
      if c2 = '%' then some (digitVal c1)
      else if c2.isDigit then
        match rest with
        | c3 :: rest2 =>
          if c3 = '%' then some (10 * digitVal c1 + digitVal c2)
          else if c3.isDigit then
            match rest2 with
            | c4 :: _ =>
              if c4 = '%' then
                some (100 * digitVal c1 + 10 * digitVal c2 + digitVal c3)
              else none
            | [] => none
          else none
        | [] => none
      else none
    else none
  | _ => none

/-- Leftmost-match scan of the regex \s(\d{1,3})% over the character list:
at each position holding a whitespace character, try to match the digit
group immediately after it. -/
def scanForPercent : List Char → Option Int
  | [] => none
  | c :: rest =>
    if isSpaceChar c then
      match matchDigitsPercent rest with
      | some v => some v
      | none => scanForPercent rest
    else
      scanForPercent rest

/-- Embeds parse_percent_as_int (lxd_vm_image_vault.cpp, lines 45-57):
first match of \s(\d{1,3})% in the progress string, converted to int, or
-1 when the regex does not match. -/
def parse_percent_as_int (progress_string : String) : Int :=
  match scanForPercent progress_string.data with
  | some v => v
  | none => -1

/-- The mutable per-instance fields of LXDVirtualMachine touched by the
lifecycle operations: the cached state, the cached IP address (the ip
member, an optional address) and the port member (an optional value that
stop() resets). -/
structure VM where
  state : State
  ip : Option String
  port : Option Nat
deriving DecidableEq

/-- Result of a current_state() call: the instance afterwards, the state
value returned to the caller, and the persist_state_for notifications the
call itself sent to the status monitor. -/
structure ReadResult where
  vm : VM
  observed : State
  notifs : List State
deriving DecidableEq

/-- Embeds current_state (lines 279-288). The remote argument is the
state instance_state_for derived from the GET of the state URL. When the
local state is delayed_shutdown while the remote says running, or the
local state is starting, the local value is returned untouched; otherwise
the member state is overwritten with the remote value. The function body
contains no monitor call, so notifs is empty on every path. -/
def current_state (vm : VM) (remote : State) : ReadResult :=
  if (vm.state = State.delayed_shutdown ∧ remote = State.running) ∨ vm.state = State.starting then
    { vm := vm, observed := vm.state, notifs := [] }
  else
    { vm := { vm with state := remote }, observed := remote, notifs := [] }

/-- Embeds update_state (lines 308-311): one persist_state_for call
carrying the current cached state. -/
def update_state (vm : VM) : List State :=
  [vm.state]

/-- Result of start() or stop(): the instance afterwards, the action
strings sent by request_state (PUT on the state URL), the GETs issued on
operation wait URLs, the monitor notifications, and the message of the
exception thrown, if any. -/
structure OpResult where
  vm : VM
  actions : List String
  waitRequests : List String
  notifs : List State
  err : Option String
deriving DecidableEq

/-- Embeds start (lines 209-231). present_state is the value returned by
current_state; the code then branches on it (and on the state member,
which current_state has just made equal to present_state): running
returns immediately, suspending throws, suspended requests unfreeze,
anything else requests start; both request paths then set the member to
starting and call update_state. -/
def start (vm : VM) (remote : State) : OpResult :=
  let r := current_state vm remote
  if r.observed = State.running then
    { vm := r.vm, actions := [], waitRequests := [], notifs := [], err := none }
  else if r.observed = State.suspending then
    { vm := r.vm, actions := [], waitRequests := [], notifs := [],
      err := some "cannot start the instance while suspending" }
  else
    let act := if r.vm.state = State.suspended then "unfreeze" else "start"
    let vm2 := { r.vm with state := State.starting }
    { vm := vm2, actions := [act], waitRequests := [], notifs := update_state vm2, err := none }

/-- The part of the stop() environment the remote controls: whether the
reply to request_state("stop") is an asynchronous task (metadata.class ==
"task" with status_code 100) and the operation id used to build its wait
URL. -/
structure StopEnv where
  stopReplyIsTask : Bool
  opId : String

/-- Embeds stop (lines 233-267). From running or delayed_shutdown the
code requests "stop", blocks on the operation wait URL when the reply is
a task, then sets the member state to stopped and resets port (the ip
member is not touched). From starting it sets the sentinel state off,
requests "stop", and blocks on the condition variable until the predicate
state == stopped holds, then resets port; the wait is embedded by its
predicate, so the resulting state is stopped. From suspended it only
logs. Every path ends in update_state. -/
def stop (vm : VM) (remote : State) (env : StopEnv) : OpResult :=
  let r := current_state vm remote
  if r.observed = State.running ∨ r.observed = State.delayed_shutdown then
    let waits := if env.stopReplyIsTask then [env.opId ++ "/wait"] else []
    let vm2 := { r.vm with state := State.stopped, port := none }
    { vm := vm2, actions := ["stop"], waitRequests := waits, notifs := update_state vm2, err := none }
  else if r.observed = State.starting then
    let vm2 := { r.vm with state := State.stopped, port := none }
    { vm := vm2, actions := ["stop"], waitRequests := [], notifs := update_state vm2, err := none }
  else
    { vm := r.vm, actions := [], waitRequests := [], notifs := update_state r.vm, err := none }

/-- Embeds ipv4 (lines 341-351): when an address is cached it is returned
without any network request; otherwise one GET of the state URL resolves
it (scripted by fresh), with "UNKNOWN" when no address is found. Returns
the instance, the string result, and the number of requests issued. -/
def ipv4 (vm : VM) (fresh : Option String) : VM × String × Nat :=
  match vm.ip with
  | some a => (vm, a, 0)
  | none =>
    match fresh with
    | some a => ({ vm with ip := some a }, a, 1)
    | none => (vm, "UNKNOWN", 1)

/-- Query types of mp::Query (only the inequality with Alias matters to
the vault code). -/
inductive QueryType
  | Alias
  | HttpDownload
  | LocalFile
deriving DecidableEq

/-- The fields of mp::Query the vault reads. -/
structure Query where
  name : String
  release : String
  remote_name : String
  query_type : QueryType
deriving DecidableEq

/-- The fields of VMImageInfo consumed by fetch_image. -/
structure ImageInfo where
  id : String
  stream_location : String
  release_title : String
  version : String
  aliases : List String
deriving DecidableEq

/-- The fields of VMImage fetch_image fills in. -/
structure VMImage where
  id : String
  stream_location : String
  original_release : String
  release_date : String
  aliases : List String
deriving DecidableEq

/-- The copy of ImageInfo fields into a VMImage performed at lines 123-133. -/
def mkSourceImage (info : ImageInfo) : VMImage :=
  { id := info.id
  , stream_location := info.stream_location
  , original_release := info.release_title
  , release_date := info.version
  , aliases := info.aliases }

/-- HTTP methods used by the vault. -/
inductive Method
  | GET
  | POST
  | PUT
  | DELETE
deriving DecidableEq

/-- The transport endpoints fetch_image can address, relative to the
base URL. -/
inductive Endpoint
  | instanceInfo (name : String)
  | imageRecord (id : String)
  | imagesPost
  | operation (id : String)
deriving DecidableEq

/-- One request handed to lxd_request. -/
structure Request where
  method : Method
  endpoint : Endpoint
deriving DecidableEq

/-- Whether a request touches the image pre-check, the pull submission or
the pull operation (as opposed to the instance-record lookup). -/
def Request.isImagePull (r : Request) : Bool :=
  match r.endpoint with
  | Endpoint.instanceInfo _ => false
  | Endpoint.imageRecord _ => true
  | Endpoint.imagesPost => true
  | Endpoint.operation _ => true

/-- How fetch_image terminated. -/
inductive FetchOutcome
  | ok (image : VMImage)
  | unsupportedSource
  | resolveFailed
  | aborted
deriving DecidableEq

/-- The scripted environment of one fetch_image call: the platform
capability probe, the outcome of info_for resolution, whether the GET of
images/fingerprint succeeds (false embeds the LXDNotFoundException
branch), the shape of the POST reply, the scripted poll responses and the
progress monitor. -/
structure FetchEnv where
  urlSupported : Bool
  infoResult : Option ImageInfo
  imageRecordFound : Bool
  pullIsTask : Bool
  pullOpId : String
  pollReplies : List PollResponse
  monitor : Int → Bool

/-- Embeds the download polling loop of fetch_image (lines 158-193): each
iteration GETs the operation URL; a not-found reply or a reply with
non-zero error_code or status_code 200 breaks out (after which
fetch_image returns the source image); otherwise the download progress is
parsed, the monitor is invoked with it, a refusal DELETEs the operation
and throws AbortedDownloadException, and acceptance sleeps and repeats.
Returns the requests issued and the outcome given the image to return on
normal exit; none when the script is exhausted. -/
def poll_download (opId : String) (monitor : Int → Bool) (image : VMImage) :
    List PollResponse → List Request × Option FetchOutcome
  | [] => ([], none)
  | PollResponse.notFound :: _ =>
    ([⟨Method.GET, Endpoint.operation opId⟩], some (FetchOutcome.ok image))
  | PollResponse.reply e s prog :: rest =>
    if e ≠ 0 then
      ([⟨Method.GET, Endpoint.operation opId⟩], some (FetchOutcome.ok image))
    else if s = 200 then
      ([⟨Method.GET, Endpoint.operation opId⟩], some (FetchOutcome.ok image))
    else
      if monitor (parse_percent_as_int prog) then
        let next := poll_download opId monitor image rest
        (⟨Method.GET, Endpoint.operation opId⟩ :: next.1, next.2)
      else
        ([⟨Method.GET, Endpoint.operation opId⟩, ⟨Method.DELETE, Endpoint.operation opId⟩],
          some FetchOutcome.aborted)

/-- Embeds LXDVMImageVault::fetch_image (lines 76-198). The call always
begins with the instance-record lookup GET, whose reply and the host
iteration over it are discarded (both the found and the not-found branch
are swallowed, lines 79-115). Then the unsupported-source guard at lines
117-119 runs, then info_for resolution, then the image pre-check GET;
only its not-found branch POSTs the pull request and, when the reply is a
task, drives the polling loop. Returns every request handed to
lxd_request in order, and the outcome. -/
def fetch_image (q : Query) (env : FetchEnv) : List Request × Option FetchOutcome :=
  let lookup : Request := ⟨Method.GET, Endpoint.instanceInfo q.name⟩
  if q.query_type ≠ QueryType.Alias ∧ ¬env.urlSupported then
    ([lookup], some FetchOutcome.unsupportedSource)
  else
    match env.infoResult with
    | none => ([lookup], some FetchOutcome.resolveFailed)
    | some info =>
      let image := mkSourceImage info
      let precheck : Request := ⟨Method.GET, Endpoint.imageRecord info.id⟩
      if env.imageRecordFound then
        ([lookup, precheck], some (FetchOutcome.ok image))
      else
        let post : Request := ⟨Method.POST, Endpoint.imagesPost⟩
        if env.pullIsTask then
          let polled := poll_download env.pullOpId env.monitor image env.pollReplies
          (lookup :: precheck :: post :: polled.1, polled.2)
        else
          ([lookup, precheck, post], some (FetchOutcome.ok image))

/-- Claim C1: the task poller stops with success on the first reply whose
metadata status_code is 200, stops with failure on the first reply with a
non-zero error_code without consuming any further reply, treats a
not-found reply as implicit successful completion, and sleeps once per
in-progress reply; concretely, [in-progress, in-progress, success] yields
success after exactly 2 sleeps and [in-progress, not-found] yields
success after 1 sleep. -/
theorem C1_task_poller :
    (∀ (rest : List PollResponse) (e s : Int) (p : String), e ≠ 0 →
      poll_operation (PollResponse.reply e s p :: rest) = some (PollOutcome.opError, 0)) ∧
    (∀ (rest : List PollResponse) (p : String),
      poll_operation (PollResponse.reply 0 200 p :: rest) = some (PollOutcome.success, 0)) ∧
    (∀ rest : List PollResponse,
      poll_operation (PollResponse.notFound :: rest) = some (PollOutcome.finishedNotFound, 0)) ∧
    (∀ (rest : List PollResponse) (s : Int) (p : String) (out : PollOutcome) (n : Nat),
      s ≠ 200 → poll_operation rest = some (out, n) →
      poll_operation (PollResponse.reply 0 s p :: rest) = some (out, n + 1)) ∧
    (PollOutcome.opError.succeeded = false ∧ PollOutcome.success.succeeded = true ∧
      PollOutcome.finishedNotFound.succeeded = true) ∧
    poll_operation
        [PollResponse.reply 0 103 "", PollResponse.reply 0 103 "", PollResponse.reply 0 200 ""] =
      some (PollOutcome.success, 2) ∧
    poll_operation [PollResponse.reply 0 103 "", PollResponse.notFound] =
      some (PollOutcome.finishedNotFound, 1) := by
  refine ⟨?_, ?_, ?_, ?_, ⟨rfl, rfl, rfl⟩, by decide, by decide⟩
  · intro rest e s p he
    simp [poll_operation, he]
  · intro rest p
    simp [poll_operation]
  · intro rest
    simp [poll_operation]
  · intro rest s p out n hs hrest
    simp [poll_operation, hs, hrest]

/-- Witness for C1 at concrete inputs. -/
theorem C1_task_poller_witness :
    poll_operation [PollResponse.reply 7 0 ""] = some (PollOutcome.opError, 0) ∧
    poll_operation [PollResponse.reply 0 103 "", PollResponse.notFound] =
      some (PollOutcome.finishedNotFound, 1) :=
  ⟨C1_task_poller.1 [] 7 0 "" (by decide),
   C1_task_poller.2.2.2.1 [PollResponse.notFound] 103 "" PollOutcome.finishedNotFound 0
     (by decide) (C1_task_poller.2.2.1 [PollResponse.notFound].tail)⟩

/-- For every reply whose status_code renders (via toInt with default -1)
outside the defined set, the mapper returns unknown and emits exactly
one error line, built from status_code.toString() and status.toInt(). -/
theorem instance_state_for_undefined (status_code status : JsonValue)
    (h : jsonToInt status_code (-1) ∉ definedStatusCodes) :
    instance_state_for status_code status =
      (State.unknown,
        [{ statusCodeText := jsonToString status_code, statusInt := jsonToInt status 0 }]) := by
  simp only [definedStatusCodes, List.mem_cons, List.not_mem_nil, or_false, not_or] at h
  obtain ⟨h101, h102, h103, h104, h106, h107, h108, h109, h110, h111⟩ := h
  simp [instance_state_for, h101, h102, h103, h104, h106, h107, h108, h109, h110, h111]

/-- Claim C2 evaluated on the code: the mapping part holds (defined codes
map to their documented states with no error line, an undefined code to
unknown with exactly one error line), but at the failing input — a reply
whose metadata status_code is the JSON number 105 and whose status is the
JSON string "Pending" — the single line the default branch emits carries
the empty string and 0: status_code.toString() renders a numeric JSON
value as the empty string and status.toInt() renders a string JSON value
as 0, because the two accessors at lines 71-73 are swapped. The raw
values 105 and "Pending", which the claim says the line carries, appear
nowhere in it. -/
theorem C2_swapped_log_accessors :
    instance_state_for (JsonValue.num 101) (JsonValue.str "Started") = (State.running, []) ∧
    instance_state_for (JsonValue.num 103) (JsonValue.str "Running") = (State.running, []) ∧
    instance_state_for (JsonValue.num 107) (JsonValue.str "Stopping") = (State.running, []) ∧
    instance_state_for (JsonValue.num 111) (JsonValue.str "Thawed") = (State.running, []) ∧
    instance_state_for (JsonValue.num 102) (JsonValue.str "Stopped") = (State.stopped, []) ∧
    instance_state_for (JsonValue.num 106) (JsonValue.str "Starting") = (State.starting, []) ∧
    instance_state_for (JsonValue.num 109) (JsonValue.str "Freezing") = (State.suspending, []) ∧
    instance_state_for (JsonValue.num 110) (JsonValue.str "Frozen") = (State.suspended, []) ∧
    instance_state_for (JsonValue.num 104) (JsonValue.str "Cancelling") = (State.unknown, []) ∧
    instance_state_for (JsonValue.num 108) (JsonValue.str "Aborting") = (State.unknown, []) ∧
    instance_state_for (JsonValue.num 105) (JsonValue.str "Pending") =
      (State.unknown, [{ statusCodeText := "", statusInt := 0 }]) ∧
    jsonToInt (JsonValue.num 105) (-1) = 105 ∧
    jsonToString (JsonValue.str "Pending") = "Pending" ∧
    (instance_state_for (JsonValue.num 105) (JsonValue.str "Pending")).2 ≠
      [{ statusCodeText := "105", statusInt := 0 }] := by
  refine ⟨rfl, rfl, rfl, rfl, rfl, rfl, rfl, rfl, rfl, rfl, rfl, rfl, rfl, by decide⟩

/-- Claim C7: the create request sizes the root disk to the maximum of
the requested size and 10 GiB; 5 GiB requested yields 10 GiB, 20 GiB
requested yields 20 GiB. -/
theorem C7_disk_sizing :
    (∀ requested : Nat, create_request_root_disk_size requested = max requested (10 * 1024 ^ 3)) ∧
    create_request_root_disk_size (5 * 1024 ^ 3) = 10 * 1024 ^ 3 ∧
    create_request_root_disk_size (20 * 1024 ^ 3) = 20 * 1024 ^ 3 := by
  refine ⟨?_, by decide, by decide⟩
  intro requested
  simp only [create_request_root_disk_size, get_minimum_disk_size, lxd_min_disk_size]
  split_ifs with h <;> omega

/-- The digit-group matcher can only succeed when a percent sign occurs
in its window. -/
theorem matchDigitsPercent_eq_none (cs : List Char) (h : '%' ∉ cs) :
    matchDigitsPercent cs = none := by
  rcases cs with _ | ⟨c1, _ | ⟨c2, _ | ⟨c3, _ | ⟨c4, rest⟩⟩⟩⟩
  · rfl
  · rfl
  · have h2 : c2 ≠ '%' := by
      intro hq; exact h (by simp [hq])
    simp [matchDigitsPercent, h2]
  · have h2 : c2 ≠ '%' := by
      intro hq; exact h (by simp [hq])
    have h3 : c3 ≠ '%' := by
      intro hq; exact h (by simp [hq])
    simp [matchDigitsPercent, h2, h3]
  · have h2 : c2 ≠ '%' := by
      intro hq; exact h (by simp [hq])
    have h3 : c3 ≠ '%' := by
      intro hq; exact h (by simp [hq])
    have h4 : c4 ≠ '%' := by
      intro hq; exact h (by simp [hq])
    simp [matchDigitsPercent, h2, h3, h4]

/-- The scan finds nothing in a string without a percent sign. -/
theorem scanForPercent_eq_none (cs : List Char) (h : '%' ∉ cs) :
    scanForPercent cs = none := by
  induction cs with
  | nil => rfl
  | cons c rest ih =>
    have hr : '%' ∉ rest := fun hm => h (List.mem_cons_of_mem _ hm)
    simp [scanForPercent, matchDigitsPercent_eq_none rest hr, ih hr]

/-- An ASCII digit is not in the whitespace class. -/
theorem isSpaceChar_eq_false_of_isDigit (c : Char) (h : c.isDigit = true) :
    isSpaceChar c = false := by
  by_contra hs
  rw [Bool.not_eq_false] at hs
  simp only [isSpaceChar, Bool.or_eq_true, decide_eq_true_eq] at hs
  rcases hs with ((((h1 | h1) | h1) | h1) | h1) | h1 <;> subst h1 <;> revert h <;> decide

/-- The scan finds nothing in a string that starts with digits and a
percent sign and whose remainder has no percent sign: no position before
the percent sign holds a whitespace character. -/
theorem scanForPercent_digits_head (ds tail : List Char)
    (hds : ∀ c ∈ ds, c.isDigit = true) (ht : '%' ∉ tail) :
    scanForPercent (ds ++ '%' :: tail) = none := by
  induction ds with
  | nil =>
    have h1 : isSpaceChar '%' = false := by decide
    simp [scanForPercent, h1, scanForPercent_eq_none tail ht]
  | cons d ds ih =>
    have hd := isSpaceChar_eq_false_of_isDigit d (hds d (List.mem_cons_self d ds))
    simp only [List.cons_append, scanForPercent, hd, Bool.false_eq_true, if_false]
    exact ih fun c hc => hds c (List.mem_cons_of_mem _ hc)

/-- Claim C8: the progress parser maps the status string
"Downloading: 42% (1.2MB/s)" to 42 and maps every string without a
percent token to the sentinel -1 instead of failing. -/
theorem C8_progress_parsing :
    parse_percent_as_int "Downloading: 42% (1.2MB/s)" = 42 ∧
    (∀ s : String, '%' ∉ s.data → parse_percent_as_int s = -1) := by
  refine ⟨by decide, ?_⟩
  intro s h
  simp [parse_percent_as_int, scanForPercent_eq_none s.data h]

/-- Witness for C8 at concrete inputs. -/
theorem C8_progress_parsing_witness :
    parse_percent_as_int "no progress yet" = -1 :=
  C8_progress_parsing.2 "no progress yet" (by decide)

/-- Claim C10: the parser recognizes a percent token only when its digits
are immediately preceded by a whitespace character; a string whose only
percent token sits at the very beginning, such as "42% done", yields the
sentinel -1 although it contains a percent token. -/
theorem C10_leading_token :
    (parse_percent_as_int "42% done" = -1 ∧ '%' ∈ "42% done".data) ∧
    (∀ ds tail : List Char, ds ≠ [] → (∀ c ∈ ds, c.isDigit = true) → '%' ∉ tail →
      parse_percent_as_int (String.mk (ds ++ '%' :: tail)) = -1) := by
  refine ⟨⟨by decide, by decide⟩, ?_⟩
  intro ds tail _ hds ht
  simp [parse_percent_as_int, scanForPercent_digits_head ds tail hds ht]

/-- Witness for C10 at a concrete input. -/
theorem C10_leading_token_witness :
    parse_percent_as_int (String.mk ['4', '2', '%', ' ', 'd', 'o', 'n', 'e']) = -1 :=
  C10_leading_token.2 ['4', '2'] [' ', 'd', 'o', 'n', 'e'] (by decide) (by decide) (by decide)

/-- After a current_state call the member state equals the value returned
to the caller, on both the keep-local and the overwrite path. -/
theorem current_state_vm_state (vm : VM) (remote : State) :
    (current_state vm remote).vm.state = (current_state vm remote).observed := by
  unfold current_state
  split_ifs <;> rfl

/-- Claim C3: start() behaves per the state machine table over the
observed state: running is a no-op that leaves the state running;
suspending is rejected with an invalid-operation error, no action and no
state change beyond the read; suspended issues the unfreeze action, not
start; every other observed state issues the start action; both action
paths leave the local state optimistically at starting. -/
theorem C3_start_state_machine (vm : VM) (remote : State) :
    ((current_state vm remote).observed = State.running →
      (start vm remote).vm.state = State.running ∧ (start vm remote).actions = [] ∧
      (start vm remote).err = none) ∧
    ((current_state vm remote).observed = State.suspending →
      (start vm remote).err = some "cannot start the instance while suspending" ∧
      (start vm remote).vm.state = State.suspending ∧ (start vm remote).actions = []) ∧
    ((current_state vm remote).observed = State.suspended →
      (start vm remote).actions = ["unfreeze"] ∧ (start vm remote).vm.state = State.starting ∧
      (start vm remote).err = none) ∧
    ((current_state vm remote).observed ≠ State.running →
      (current_state vm remote).observed ≠ State.suspending →
      (current_state vm remote).observed ≠ State.suspended →
      (start vm remote).actions = ["start"] ∧ (start vm remote).vm.state = State.starting ∧
      (start vm remote).err = none) := by
  have hvs := current_state_vm_state vm remote
  refine ⟨?_, ?_, ?_, ?_⟩
  · intro h
    rw [h] at hvs
    simp [start, h, hvs]
  · intro h
    rw [h] at hvs
    simp [start, h, hvs]
  · intro h
    rw [h] at hvs
    simp [start, h, hvs]
  · intro h1 h2 h3
    rw [← hvs] at h3
    simp [start, h1, h2, h3]

/-- Witness for C3 at concrete inputs: a suspended instance is resumed
with unfreeze, a stopped instance with start. -/
theorem C3_start_witness :
    (start ⟨State.suspended, none, none⟩ State.suspended).actions = ["unfreeze"] ∧
    (start ⟨State.stopped, none, none⟩ State.stopped).actions = ["start"] :=
  ⟨((C3_start_state_machine ⟨State.suspended, none, none⟩ State.suspended).2.2.1 (by decide)).1,
   ((C3_start_state_machine ⟨State.stopped, none, none⟩ State.stopped).2.2.2 (by decide)
     (by decide) (by decide)).1⟩

/-- Claim C4 evaluated on the code: stop() from running (with the wait
variant), from delayed_shutdown and from starting leaves the local state
stopped and resets the port member, but the cached ip member survives
untouched, so a following ipv4() lookup returns the stale cached address
without issuing any request. The claim and the spec say the cached IP is
cleared; the code clears only the otherwise-unused port member. -/
theorem C4_stop_keeps_cached_ip :
    ((stop ⟨State.running, some "10.167.11.5", some 22⟩ State.running
        ⟨true, "op1"⟩).vm.state = State.stopped ∧
      (stop ⟨State.running, some "10.167.11.5", some 22⟩ State.running
        ⟨true, "op1"⟩).vm.port = none ∧
      (stop ⟨State.running, some "10.167.11.5", some 22⟩ State.running
        ⟨true, "op1"⟩).waitRequests = ["op1/wait"] ∧
      (stop ⟨State.running, some "10.167.11.5", some 22⟩ State.running
        ⟨true, "op1"⟩).vm.ip = some "10.167.11.5" ∧
      (ipv4 (stop ⟨State.running, some "10.167.11.5", some 22⟩ State.running
        ⟨true, "op1"⟩).vm none).2 = ("10.167.11.5", 0)) ∧
    ((stop ⟨State.delayed_shutdown, some "10.0.2.9", none⟩ State.running
        ⟨false, ""⟩).vm.state = State.stopped ∧
      (stop ⟨State.delayed_shutdown, some "10.0.2.9", none⟩ State.running
        ⟨false, ""⟩).vm.ip = some "10.0.2.9") ∧
    ((stop ⟨State.starting, some "10.0.2.9", none⟩ State.starting
        ⟨false, ""⟩).vm.state = State.stopped ∧
      (stop ⟨State.starting, some "10.0.2.9", none⟩ State.starting
        ⟨false, ""⟩).vm.ip = some "10.0.2.9") := by
  refine ⟨⟨rfl, rfl, rfl, rfl, rfl⟩, ⟨rfl, rfl⟩, ⟨rfl, rfl⟩⟩

/-- Claim C6 as stated is refuted at a concrete input: a current_state
read on a locally stopped instance with the remote reporting running
overwrites the local state with the remote-derived value, yet the read
sends no status-monitor notification. -/
theorem C6_counterexample :
    (current_state ⟨State.stopped, none, none⟩ State.running).vm.state = State.running ∧
    (current_state ⟨State.stopped, none, none⟩ State.running).vm.state ≠ State.stopped ∧
    (current_state ⟨State.stopped, none, none⟩ State.running).notifs = [] := by
  refine ⟨rfl, by decide, rfl⟩

/-- Claim C6 amended: when remote state is re-read, a local state of
starting, or of delayed_shutdown with the remote reporting running, is
kept instead of being overwritten; every other read overwrites the local
state with the remote-derived value unconditionally; the read itself
notifies no status monitor — the notification is issued by the separate
update_state step the mutating operations invoke, carrying the cached
state — and the cached state never regresses while starting. -/
theorem C6_amended (vm : VM) (remote : State) :
    (vm.state = State.starting → current_state vm remote = ⟨vm, vm.state, []⟩) ∧
    (vm.state = State.delayed_shutdown → remote = State.running →
      current_state vm remote = ⟨vm, vm.state, []⟩) ∧
    (vm.state ≠ State.starting → ¬(vm.state = State.delayed_shutdown ∧ remote = State.running) →
      (current_state vm remote).vm.state = remote ∧
      (current_state vm remote).observed = remote) ∧
    (current_state vm remote).notifs = [] ∧
    update_state (current_state vm remote).vm = [(current_state vm remote).vm.state] ∧
    (vm.state = State.starting → (current_state vm remote).vm.state = State.starting) := by
  refine ⟨?_, ?_, ?_, ?_, ?_, ?_⟩
  · intro h
    simp [current_state, h]
  · intro h1 h2
    simp [current_state, h1, h2]
  · intro h1 h2
    simp [current_state, h1, h2]
  · unfold current_state
    split_ifs <;> rfl
  · simp [update_state]
  · intro h
    simp [current_state, h]

/-- Witness for C6 amended at concrete inputs. -/
theorem C6_amended_witness :
    (current_state ⟨State.starting, none, none⟩ State.running).vm.state = State.starting ∧
    (current_state ⟨State.delayed_shutdown, some "ip", none⟩ State.running).vm.state =
      State.delayed_shutdown ∧
    (current_state ⟨State.off, none, none⟩ State.running).vm.state = State.running :=
  ⟨(C6_amended ⟨State.starting, none, none⟩ State.running).2.2.2.2.2 rfl,
   congrArg (fun r => r.vm.state)
     ((C6_amended ⟨State.delayed_shutdown, some "ip", none⟩ State.running).2.1 rfl rfl),
   ((C6_amended ⟨State.off, none, none⟩ State.running).2.2.1 (by decide) (by decide)).1⟩

/-- Claim C5 as stated is refuted at a concrete input: for a non-alias
query on a platform without URL image support, fetch_image does return
the unsupported-source error, but only after the instance-record lookup
GET has already been handed to the transport, so the list of requests
reaching the transport is not empty. -/
theorem C5_counterexample :
    (fetch_image ⟨"foo", "bionic", "", QueryType.HttpDownload⟩
        ⟨false, none, false, false, "", [], fun _ => true⟩).2 =
      some FetchOutcome.unsupportedSource ∧
    (fetch_image ⟨"foo", "bionic", "", QueryType.HttpDownload⟩
        ⟨false, none, false, false, "", [], fun _ => true⟩).1 =
      [⟨Method.GET, Endpoint.instanceInfo "foo"⟩] ∧
    (fetch_image ⟨"foo", "bionic", "", QueryType.HttpDownload⟩
        ⟨false, none, false, false, "", [], fun _ => true⟩).1 ≠ [] := by
  refine ⟨rfl, rfl, by decide⟩

/-- Claim C5 amended: for every non-alias query on a platform without URL
image support, fetch_image fails with the unsupported-source error before
any image-related network call — no image pre-check GET, no pull POST and
no operation request is issued; the only request preceding the error is
the initial instance-record lookup GET. -/
theorem C5_amended (q : Query) (env : FetchEnv)
    (hq : q.query_type ≠ QueryType.Alias) (hp : env.urlSupported = false) :
    (fetch_image q env).2 = some FetchOutcome.unsupportedSource ∧
    (fetch_image q env).1 = [⟨Method.GET, Endpoint.instanceInfo q.name⟩] ∧
    ∀ r ∈ (fetch_image q env).1, r.isImagePull = false := by
  have hg : q.query_type ≠ QueryType.Alias ∧ ¬env.urlSupported = true := by
    exact ⟨hq, by simp [hp]⟩
  refine ⟨?_, ?_, ?_⟩ <;> simp [fetch_image, hg, Request.isImagePull]

/-- Witness for C5 amended at a concrete input. -/
theorem C5_amended_witness :
    (fetch_image ⟨"w", "focal", "", QueryType.LocalFile⟩
        ⟨false, none, false, false, "", [], fun _ => false⟩).2 =
      some FetchOutcome.unsupportedSource :=
  (C5_amended ⟨"w", "focal", "", QueryType.LocalFile⟩
    ⟨false, none, false, false, "", [], fun _ => false⟩ (by decide) rfl).1

/-- Claim C9: when the pre-check GET for the resolved image fingerprint
succeeds, fetch_image issues no POST pull request and no operation
request: the transport sees exactly the instance-record lookup GET and
the image pre-check GET, and the resolved image is returned. -/
theorem C9_fetch_skip (q : Query) (env : FetchEnv) (info : ImageInfo)
    (hok : q.query_type = QueryType.Alias ∨ env.urlSupported = true)
    (hinfo : env.infoResult = some info)
    (hfound : env.imageRecordFound = true) :
    (fetch_image q env).1 =
      [⟨Method.GET, Endpoint.instanceInfo q.name⟩,
       ⟨Method.GET, Endpoint.imageRecord info.id⟩] ∧
    (∀ r ∈ (fetch_image q env).1, r.method ≠ Method.POST) ∧
    (∀ r ∈ (fetch_image q env).1, ∀ oid, r.endpoint ≠ Endpoint.operation oid) ∧
    (fetch_image q env).2 = some (FetchOutcome.ok (mkSourceImage info)) := by
  have hg : ¬(¬q.query_type = QueryType.Alias ∧ env.urlSupported = false) := by
    rcases hok with h | h <;> simp [h]
  refine ⟨?_, ?_, ?_, ?_⟩ <;> simp [fetch_image, hg, hinfo, hfound]

/-- Witness for C9 at a concrete input. -/
theorem C9_fetch_skip_witness :
    (fetch_image ⟨"w", "bionic", "", QueryType.Alias⟩
        ⟨false, some ⟨"fp", "sl", "rt", "v", []⟩, true, false, "", [], fun _ => true⟩).1 =
      [⟨Method.GET, Endpoint.instanceInfo "w"⟩, ⟨Method.GET, Endpoint.imageRecord "fp"⟩] :=
  (C9_fetch_skip ⟨"w", "bionic", "", QueryType.Alias⟩
    ⟨false, some ⟨"fp", "sl", "rt", "v", []⟩, true, false, "", [], fun _ => true⟩
    ⟨"fp", "sl", "rt", "v", []⟩ (Or.inl rfl) rfl rfl).1

end LXD
